import Mathlib

/-! EasyCL `OpenCLHelper.h`: a shallow embedding and its verified properties

The file embeds the header `OpenCLHelper.h`:

* the arithmetic utilities `roundUp` and `getPower2Upperbound`, over 32-bit
  two's-complement `int` (values are `Int`, every arithmetic result is wrapped
  by `wrapInt`);
* the constructor, `finish` and `checkError`, as functions from the answers of
  the OpenCL driver and of the allocator to a trace of observable events and
  an `Outcome` (normal return, `exit(code)`, a C++ exception, or undefined
  behaviour);
* `getFileContents`, as a function from the answers of the C library for the
  file to a trace and an `Outcome`.

`Outcome.exited code` carries the argument handed to `exit`. Console output is
kept as `Event.print` entries of the trace, one per `std::endl`.
-/

namespace EasyCL

/-! ## Machine integers -/

/-- Smallest value of a 32-bit `int`. -/
def INT_MIN : Int := -2147483648

/-- Largest value of a 32-bit `int`. -/
def INT_MAX : Int := 2147483647

/-- Reduction of a mathematical integer to the 32-bit two's-complement `int`
that the machine keeps. -/
def wrapInt (x : Int) : Int := (x + 2147483648) % 4294967296 - 2147483648

/-- Conversion of an `int` to `unsigned int` (`cl_uint`), as the usual
arithmetic conversions do when an `int` meets a `cl_uint` in a comparison. -/
def toUnsigned (x : Int) : Nat := (x % 4294967296).toNat

/-- The driver status `CL_SUCCESS`. -/
def CL_SUCCESS : Int := 0

/-! ## Outcomes and traces -/

/-- How a call ends: it returns to the caller, the process ends through
`exit(code)`, a C++ exception leaves the call, or the call runs into undefined
behaviour (an access outside an array), after which nothing is known. -/
inductive Outcome (α : Type) where
  | returned (value : α)
  | exited (code : Int)
  | thrown (what : String)
  | undefined
  deriving DecidableEq, Repr

/-- Observable steps of a call, in program order. -/
inductive Event where
  | clewInit
  | clGetPlatformIDs
  | clGetDeviceIDs (num_entries : Nat)
  | newDeviceIds (count : Nat)
  | readDeviceIds (index : Int)
  | clCreateContext (device : Nat)
  | clCreateCommandQueue (context device : Nat)
  | clFinish (queue : Nat)
  | fopen (filename : String)
  | fread (length : Int)
  | print (text : String)
  deriving DecidableEq, Repr

/-- Sequencing of two traced computations: the second runs only when the first
returned. -/
def andThen {α β : Type} (r : List Event × Outcome α)
    (k : α → List Event × Outcome β) : List Event × Outcome β :=
  match r with
  | (t, Outcome.returned a) => ((t ++ (k a).1), (k a).2)
  | (t, Outcome.exited c) => (t, Outcome.exited c)
  | (t, Outcome.thrown w) => (t, Outcome.thrown w)
  | (t, Outcome.undefined) => (t, Outcome.undefined)

/-- An event that selects a device or creates a context or a queue. -/
def usesDevice : Event → Bool
  | Event.readDeviceIds _ => true
  | Event.clCreateContext _ => true
  | Event.clCreateCommandQueue _ _ => true
  | _ => false

/-! ## The driver and the object -/

/-- Answers of the OpenCL driver (through clew) to the calls the constructor
makes, one field per out-parameter or return value, and the answer of the
allocator to `new cl_device_id[num_devices]`. Handles are numbers;
`num_platforms`, `num_devices1`, `num_devices2` are `cl_uint`. -/
structure Driver where
  /-- return value of `clewInit()` -/
  clewInit : Int
  /-- return value of `clGetPlatformIDs` -/
  platformsError : Int
  platform_id : Nat
  num_platforms : Nat
  /-- return value of the first `clGetDeviceIDs` (one entry) -/
  devicesError1 : Int
  num_devices1 : Nat
  /-- whether `new cl_device_id[num_devices]` gives the array; it throws
  `std::bad_alloc` otherwise -/
  deviceIdsAllocated : Bool
  /-- return value of the second `clGetDeviceIDs` (`num_devices` entries) -/
  devicesError2 : Int
  /-- entries of the array `device_ids` after the second call; the array has
  `num_devices1` entries and is read only at an index inside it -/
  device_ids : Int → Nat
  num_devices2 : Nat
  /-- status written by `clCreateContext` -/
  contextError : Int
  context : Nat
  /-- status written by `clCreateCommandQueue` -/
  queueError : Int
  queue : Nat

/-- Fields of the class `OpenCLHelper` that the header assigns (`program` is
never assigned in the header). -/
structure OpenCLHelper where
  error : Int
  num_platforms : Nat
  platform_id : Nat
  context : Nat
  queue : Nat
  device : Nat
  num_devices : Nat
  gpuIndex : Int
  deriving DecidableEq, Repr

namespace OpenCLHelper

/-! ## Arithmetic utilities -/

/-- `static int roundUp( int quantization, int minimum )`. The division traps
for a zero divisor and for `INT_MIN / -1`, where there is no result. -/
def roundUp (quantization minimum : Int) : Option Int :=
  if quantization = 0 ∨ (minimum = INT_MIN ∧ quantization = -1) then none
  else
    let size := wrapInt (wrapInt (Int.tdiv minimum quantization) * quantization)
    if size < minimum then some (wrapInt (size + quantization)) else some size

/-- The statement `upperbound <<= 1` on a 32-bit `int`. -/
def shl1 (x : Int) : Int := wrapInt (x * 2)

/-- The loop `while( upperbound < value ) upperbound <<= 1;` followed by
`return upperbound`, run for at most `fuel` evaluations of the loop test. -/
def getPower2UpperboundLoop (value : Int) : Nat → Int → Option Int
  | 0, _ => none
  | fuel + 1, upperbound =>
    if upperbound < value then getPower2UpperboundLoop value fuel (shl1 upperbound)
    else some upperbound

/-- `static int getPower2Upperbound( int value )`: `upperbound` starts at 1.
The result is `none` when `fuel` loop tests were not enough. -/
def getPower2Upperbound (fuel : Nat) (value : Int) : Option Int :=
  getPower2UpperboundLoop value fuel 1

/-! ## Error reporting -/

/-- `template<typename T> static std::string toString(T val )`, at `int`. -/
def toString (val : Int) : String := ToString.toString val

/-- `static std::string errorMessage(cl_int error )`. -/
def errorMessage (error : Int) : String := toString error

/-- `static void checkError( cl_int error )`. -/
def checkError (error : Int) : List Event × Outcome Unit :=
  if error ≠ CL_SUCCESS then
    ([Event.print ("error: " ++ toString error)], Outcome.exited (-1))
  else
    ([], Outcome.returned ())

/-! ## Constructor -/

/-- `OpenCLHelper(int gpuindex )`, against the answers `d` of the driver. The
array `device_ids` has the `num_devices` entries the first `clGetDeviceIDs`
reported; `device_ids[gpuindex]` outside it is undefined behaviour. -/
def ctor (d : Driver) (gpuindex : Int) : List Event × Outcome OpenCLHelper :=
  if d.clewInit ≠ 0 then
    ([Event.clewInit], Outcome.thrown "OpenCL library not found")
  else if d.platformsError ≠ CL_SUCCESS then
    ([Event.clewInit, Event.clGetPlatformIDs,
      Event.print ("Error getting platforms ids: " ++ errorMessage d.platformsError)],
     Outcome.exited d.platformsError)
  else if d.num_platforms = 0 then
    ([Event.clewInit, Event.clGetPlatformIDs,
      Event.print "Error: no platforms available"],
     Outcome.exited (-1))
  else if d.devicesError1 ≠ CL_SUCCESS then
    ([Event.clewInit, Event.clGetPlatformIDs, Event.clGetDeviceIDs 1,
      Event.print ("Error getting device ids: " ++ errorMessage d.devicesError1)],
     Outcome.exited d.devicesError1)
  else if d.deviceIdsAllocated = false then
    ([Event.clewInit, Event.clGetPlatformIDs, Event.clGetDeviceIDs 1,
      Event.newDeviceIds d.num_devices1],
     Outcome.thrown "std::bad_alloc")
  else if d.devicesError2 ≠ CL_SUCCESS then
    ([Event.clewInit, Event.clGetPlatformIDs, Event.clGetDeviceIDs 1,
      Event.newDeviceIds d.num_devices1, Event.clGetDeviceIDs d.num_devices1,
      Event.print ("Error getting device ids: " ++ errorMessage d.devicesError2)],
     Outcome.exited d.devicesError2)
  else if toUnsigned gpuindex ≥ d.num_devices2 then
    ([Event.clewInit, Event.clGetPlatformIDs, Event.clGetDeviceIDs 1,
      Event.newDeviceIds d.num_devices1, Event.clGetDeviceIDs d.num_devices1,
      Event.print ("requested gpuindex " ++ toString gpuindex ++
        " goes beyond number of available device " ++ ToString.toString d.num_devices2)],
     Outcome.exited (-1))
  else if ¬ (0 ≤ gpuindex ∧ gpuindex < (d.num_devices1 : Int)) then
    ([Event.clewInit, Event.clGetPlatformIDs, Event.clGetDeviceIDs 1,
      Event.newDeviceIds d.num_devices1, Event.clGetDeviceIDs d.num_devices1,
      Event.readDeviceIds gpuindex],
     Outcome.undefined)
  else if d.contextError ≠ CL_SUCCESS then
    ([Event.clewInit, Event.clGetPlatformIDs, Event.clGetDeviceIDs 1,
      Event.newDeviceIds d.num_devices1, Event.clGetDeviceIDs d.num_devices1,
      Event.readDeviceIds gpuindex,
      Event.clCreateContext (d.device_ids gpuindex),
      Event.print ("Error creating context: " ++ errorMessage d.contextError)],
     Outcome.exited d.contextError)
  else if d.queueError ≠ CL_SUCCESS then
    ([Event.clewInit, Event.clGetPlatformIDs, Event.clGetDeviceIDs 1,
      Event.newDeviceIds d.num_devices1, Event.clGetDeviceIDs d.num_devices1,
      Event.readDeviceIds gpuindex,
      Event.clCreateContext (d.device_ids gpuindex),
      Event.clCreateCommandQueue d.context (d.device_ids gpuindex),
      Event.print ("Error creating command queue: " ++ errorMessage d.queueError)],
     Outcome.exited d.queueError)
  else
    ([Event.clewInit, Event.clGetPlatformIDs, Event.clGetDeviceIDs 1,
      Event.newDeviceIds d.num_devices1, Event.clGetDeviceIDs d.num_devices1,
      Event.readDeviceIds gpuindex,
      Event.clCreateContext (d.device_ids gpuindex),
      Event.clCreateCommandQueue d.context (d.device_ids gpuindex)],
     Outcome.returned
      { error := d.queueError
        num_platforms := d.num_platforms
        platform_id := d.platform_id
        context := d.context
        queue := d.queue
        device := d.device_ids gpuindex
        num_devices := d.num_devices2
        gpuIndex := gpuindex })

/-! ## Synchronisation -/

/-- `void finish()`: `status` is what `clFinish( queue )` returns. -/
def finish (self : OpenCLHelper) (status : Int) : List Event × Outcome OpenCLHelper :=
  let self1 : OpenCLHelper := { self with error := status }
  if self1.error = CL_SUCCESS then
    ([Event.clFinish self1.queue], Outcome.returned self1)
  else if self1.error = -36 then
    ([Event.clFinish self1.queue,
      Event.print
        "Invalid command queue: often indicates out of bounds memory access within kernel"],
     Outcome.exited (-1))
  else
    andThen ([Event.clFinish self1.queue], Outcome.returned ())
      (fun _ => andThen (checkError self1.error) (fun _ => ([], Outcome.returned self1)))

/-! ## Kernel source loading -/

/-- Answers of the C library and of the allocator for one file: whether
`fopen` gives a stream, the value `ftell` reports at the end of the stream (the
length of the file, or `-1` when it fails), whether `new char[length + 1]`
gives the buffer (it throws `std::bad_alloc` otherwise), and the bytes the
stream delivers to `fread`, in order. -/
structure FileAnswers where
  opens : Bool
  ftell : Int
  bufferAllocated : Bool
  contents : List UInt8

/-- `std::string( buffer )` for a buffer holding `bytes` followed by a zero
byte: the characters before the first zero byte. -/
def stringOfBuffer (bytes : List UInt8) : List UInt8 :=
  bytes.takeWhile (fun b => b ≠ 0)

/-- `static std::string getFileContents( std::string filename )`; a
`std::string` is its list of bytes. `fs` gives the answers of the C library
for each file name.

`fread (buffer, 1, length, f)` stores the first `length` bytes the stream
delivers, or all of them when there are fewer, and returns their number; the
count it is asked for is `length` converted to a 64-bit `size_t`. A negative
array size makes `new` throw `std::bad_array_new_length`, a failed allocation
makes it throw `std::bad_alloc`; `new` never gives a null pointer, so the
branch of the source that prints `Failed to allocate memory for cl source` is
never taken. Bytes stored past the `length + 1` bytes of the buffer are
undefined behaviour. -/
def getFileContents (fs : String → FileAnswers) (filename : String) :
    List Event × Outcome (List UInt8) :=
  let f := fs filename
  if f.opens then
    let length : Int := f.ftell
    if length + 1 < 0 then
      ([Event.fopen filename], Outcome.thrown "std::bad_array_new_length")
    else if f.bufferAllocated = false then
      ([Event.fopen filename], Outcome.thrown "std::bad_alloc")
    else
      let stored : List UInt8 := f.contents.take (length % 18446744073709551616).toNat
      if (stored.length : Int) > length + 1 then
        ([Event.fopen filename, Event.fread length], Outcome.undefined)
      else
        let bytesread : Int := wrapInt stored.length
        if bytesread ≠ length then
          ([Event.fopen filename, Event.fread length,
            Event.print "Failed to read cl source file"], Outcome.exited (-1))
        else
          ([Event.fopen filename, Event.fread length],
           Outcome.returned (stringOfBuffer stored))
  else
    ([Event.fopen filename], Outcome.returned [])

/-! ## Concrete inputs -/

/-- A driver with one platform and two GPU devices, every call succeeding. -/
def goodDriver : Driver where
  clewInit := 0
  platformsError := 0
  platform_id := 7
  num_platforms := 1
  devicesError1 := 0
  num_devices1 := 2
  deviceIdsAllocated := true
  devicesError2 := 0
  device_ids := fun i => if i = 0 then 100 else 101
  num_devices2 := 2
  contextError := 0
  context := 200
  queueError := 0
  queue := 300

/-- The answers when the OpenCL library cannot be loaded: `clewInit` fails. -/
def noLibraryDriver : Driver := { goodDriver with clewInit := 1 }

/-- The answers when the array `device_ids` cannot be allocated. -/
def noMemoryDriver : Driver := { goodDriver with deviceIdsAllocated := false }

/-- A driver whose first enumeration reports one device and whose second
reports two. -/
def growingDriver : Driver := { goodDriver with num_devices1 := 1 }

/-- A driver with no platform, whose device enumeration would fail with `-30`
if it were asked. -/
def noPlatformDriver : Driver :=
  { goodDriver with num_platforms := 0, devicesError1 := -30 }

/-- A file system in which no file opens. -/
def emptyFs : String → FileAnswers :=
  fun _ => { opens := false, ftell := 0, bufferAllocated := true, contents := [] }

/-- A file system whose every file holds the three bytes `A`, NUL, `B` and is
read completely. -/
def nulFs : String → FileAnswers :=
  fun _ => { opens := true, ftell := 3, bufferAllocated := true, contents := [65, 0, 66] }

/-- A file system whose every file holds the text `kernel` and is read
completely. -/
def textFs : String → FileAnswers :=
  fun _ =>
    { opens := true, ftell := 6, bufferAllocated := true,
      contents := [107, 101, 114, 110, 101, 108] }

/-- A file system whose every file reports six bytes and delivers four. -/
def shortFs : String → FileAnswers :=
  fun _ =>
    { opens := true, ftell := 6, bufferAllocated := true, contents := [107, 101, 114, 110] }

/-! ## Lemmas on machine integers and on the doubling loop -/

theorem wrapInt_of_inRange (x : Int) (h1 : INT_MIN ≤ x) (h2 : x ≤ INT_MAX) :
    wrapInt x = x := by
  unfold INT_MIN at h1
  unfold INT_MAX at h2
  unfold wrapInt
  omega

theorem toUnsigned_of_nonneg (x : Int) (h1 : 0 ≤ x) (h2 : x ≤ INT_MAX) :
    (toUnsigned x : Int) = x := by
  unfold INT_MAX at h2
  unfold toUnsigned
  omega

theorem toUnsigned_of_neg (x : Int) (h1 : INT_MIN ≤ x) (h2 : x < 0) :
    (2147483648 : Int) ≤ toUnsigned x := by
  unfold INT_MIN at h1
  unfold toUnsigned
  omega

/-- More fuel never changes a result the loop already gave. -/
theorem getPower2UpperboundLoop_mono (value : Int) :
    ∀ (n : Nat) (ub r : Int), getPower2UpperboundLoop value n ub = some r →
      ∀ m, n ≤ m → getPower2UpperboundLoop value m ub = some r := by
  intro n
  induction n with
  | zero => intro ub r h; simp [getPower2UpperboundLoop] at h
  | succ n ih =>
    intro ub r h m hm
    obtain ⟨m', rfl⟩ : ∃ m', m = m' + 1 := ⟨m - 1, by omega⟩
    simp only [getPower2UpperboundLoop] at h ⊢
    by_cases hlt : ub < value
    · rw [if_pos hlt] at h ⊢
      exact ih _ _ h m' (by omega)
    · rw [if_neg hlt] at h ⊢
      exact h

/-- From a power of two `2 ^ k` with `k ≤ 30`, and a bound of at most `2 ^ 30`,
the loop stops at the first power of two that reaches the bound. -/
theorem getPower2UpperboundLoop_pow (value : Int) (hv : value ≤ 2 ^ 30) :
    ∀ (n k : Nat), k ≤ 30 → 31 ≤ n + k → (k = 0 ∨ (2 : Int) ^ (k - 1) < value) →
      ∃ j, j ≤ 30 ∧ getPower2UpperboundLoop value n (2 ^ k) = some (2 ^ j) ∧ value ≤ 2 ^ j ∧
        (j = 0 ∨ (2 : Int) ^ (j - 1) < value) := by
  intro n
  induction n with
  | zero => intro k hk hn; omega
  | succ n ih =>
    intro k hk hn hinv
    simp only [getPower2UpperboundLoop]
    by_cases hlt : (2 : Int) ^ k < value
    · rw [if_pos hlt]
      have hk30 : k < 30 := by
        by_contra hge
        have : k = 30 := by omega
        subst this
        omega
      have hpow : (2 : Int) ^ (k + 1) ≤ 2 ^ 30 :=
        pow_le_pow_right₀ (by norm_num) (by omega)
      have hpos : (0 : Int) < 2 ^ (k + 1) := by positivity
      have hshl : shl1 (2 ^ k) = 2 ^ (k + 1) := by
        unfold shl1
        rw [← pow_succ]
        apply wrapInt_of_inRange
        · unfold INT_MIN; omega
        · unfold INT_MAX; norm_num at hpow ⊢; omega
      rw [hshl]
      exact ih (k + 1) (by omega) (by omega) (Or.inr (by simpa using hlt))
    · rw [if_neg hlt]
      exact ⟨k, hk, rfl, by omega, hinv⟩

/-- Above `2 ^ 30` the loop never stops: `upperbound` runs through the powers
of two up to `2 ^ 30`, wraps to `INT_MIN`, then to `0`, and stays there. -/
theorem getPower2UpperboundLoop_diverges (value : Int) (hv : 2 ^ 30 < value) :
    ∀ (n : Nat) (ub : Int), (ub = 0 ∨ ub = INT_MIN ∨ ∃ k : Nat, k ≤ 30 ∧ ub = 2 ^ k) →
      getPower2UpperboundLoop value n ub = none := by
  intro n
  induction n with
  | zero => intro ub _; rfl
  | succ n ih =>
    intro ub hub
    simp only [getPower2UpperboundLoop]
    rcases hub with h0 | hmin | ⟨k, hk, hpk⟩
    · subst h0
      rw [if_pos (by norm_num at hv; omega)]
      exact ih _ (Or.inl (by decide))
    · subst hmin
      rw [if_pos (by norm_num at hv; unfold INT_MIN; omega)]
      exact ih _ (Or.inl (by decide))
    · subst hpk
      have hle : (2 : Int) ^ k ≤ 2 ^ 30 := pow_le_pow_right₀ (by norm_num) hk
      rw [if_pos (by omega)]
      by_cases hk30 : k = 30
      · subst hk30
        exact ih _ (Or.inr (Or.inl (by decide)))
      · have hpow : (2 : Int) ^ (k + 1) ≤ 2 ^ 30 :=
          pow_le_pow_right₀ (by norm_num) (by omega)
        have hpos : (0 : Int) < 2 ^ (k + 1) := by positivity
        have hshl : shl1 (2 ^ k) = 2 ^ (k + 1) := by
          unfold shl1
          rw [← pow_succ]
          apply wrapInt_of_inRange
          · unfold INT_MIN; omega
          · unfold INT_MAX; norm_num at hpow ⊢; omega
        rw [hshl]
        exact ih _ (Or.inr (Or.inr ⟨k + 1, by omega, rfl⟩))

theorem getPower2Upperbound_diverges (value : Int) (hv : 2 ^ 30 < value) (fuel : Nat) :
    getPower2Upperbound fuel value = none :=
  getPower2UpperboundLoop_diverges value hv fuel 1 (Or.inr (Or.inr ⟨0, by omega, by norm_num⟩))

/-! ## The examples of the specification, evaluated -/

/-- `roundUp(16, 20) = 32`, `roundUp(16, 16) = 16`, `roundUp(16, 0) = 0`, and a
zero quantization has no result. -/
theorem roundUp_examples :
    roundUp 16 20 = some 32 ∧ roundUp 16 16 = some 16 ∧ roundUp 16 0 = some 0 ∧
      roundUp 0 5 = none := by
  decide

/-- `getPower2Upperbound` maps 1 to 1, 5 to 8, 1024 to 1024, 1025 to 2048, and
0 to 1. -/
theorem getPower2Upperbound_examples :
    getPower2Upperbound 31 1 = some 1 ∧ getPower2Upperbound 31 5 = some 8 ∧
      getPower2Upperbound 31 1024 = some 1024 ∧ getPower2Upperbound 31 1025 = some 2048 ∧
      getPower2Upperbound 31 0 = some 1 := by
  decide

/-! ## C1: roundUp -/

/-- Claim C1, as amended: for every quantization `q ≥ 1` and minimum `m ≥ 0`
such that some multiple of `q` that is at least `m` fits in a 32-bit `int`,
`roundUp q m` returns the smallest multiple of `q` that is at least `m`: the
result `r` has `r mod q = 0`, `m ≤ r`, `r < m + q`, fits in an `int`, and no
multiple of `q` that is at least `m` is smaller. (The result is non-negative,
so the remainder of `Int` and the remainder of C agree on it.) -/
theorem roundUp_smallest_multiple (q m : Int) (hq : 1 ≤ q) (hm : 0 ≤ m)
    (hrep : ∃ k : Int, m ≤ k * q ∧ k * q ≤ INT_MAX) :
    ∃ r, roundUp q m = some r ∧ r % q = 0 ∧ m ≤ r ∧ r < m + q ∧ r ≤ INT_MAX ∧
      ∀ r' : Int, r' % q = 0 → m ≤ r' → r ≤ r' := by
  obtain ⟨k, hk1, hk2⟩ := hrep
  have hq0 : 0 < q := by omega
  have hdiv : Int.tdiv m q = m / q := Int.tdiv_eq_ediv hm (by omega)
  have h1 : q * (m / q) + m % q = m := Int.ediv_add_emod m q
  have h2 : 0 ≤ m % q := Int.emod_nonneg _ (by omega)
  have h3 : m % q < q := Int.emod_lt_of_pos _ hq0
  have hd0 : 0 ≤ m / q := Int.ediv_nonneg hm (by omega)
  have hdle : m / q ≤ m := by nlinarith
  have hsz : m / q * q ≤ m := by nlinarith
  have hsz0 : 0 ≤ m / q * q := by positivity
  have hmax : INT_MAX = 2147483647 := rfl
  have hmin : INT_MIN = -2147483648 := rfl
  have hw1 : wrapInt (m / q) = m / q := wrapInt_of_inRange _ (by omega) (by omega)
  have hw2 : wrapInt (m / q * q) = m / q * q := wrapInt_of_inRange _ (by omega) (by omega)
  have hcond : ¬ (q = 0 ∨ (m = INT_MIN ∧ q = -1)) := by omega
  have hmin_mult : ∀ r' : Int, r' % q = 0 → m ≤ r' → m / q * q < m → m / q * q + q ≤ r' := by
    intro r' hr' hmr' hlt
    obtain ⟨c, rfl⟩ := Int.dvd_of_emod_eq_zero hr'
    have : m / q < c := by
      by_contra hc
      have : c ≤ m / q := by omega
      nlinarith
    nlinarith
  unfold roundUp
  rw [if_neg hcond]
  simp only [hdiv, hw1, hw2]
  by_cases hlt : m / q * q < m
  · rw [if_pos hlt]
    have hk : m / q * q + q ≤ k * q := hmin_mult (k * q) (by simp) hk1 hlt
    have hw3 : wrapInt (m / q * q + q) = m / q * q + q :=
      wrapInt_of_inRange _ (by omega) (by omega)
    refine ⟨_, by rw [hw3], ?_, by linarith, by linarith, by omega, ?_⟩
    · have : m / q * q + q = (m / q + 1) * q := by ring
      rw [this]; simp
    · intro r' hr' hmr'
      exact hmin_mult r' hr' hmr' hlt
  · rw [if_neg hlt]
    refine ⟨_, rfl, by simp, by omega, by omega, by omega, ?_⟩
    intro r' _ hmr'
    omega

/-- The amended C1 at `roundUp(16, 20)`: the multiple `2 * 16` fits. -/
theorem roundUp_smallest_multiple_witness :
    ∃ r, roundUp 16 20 = some r ∧ r % 16 = 0 ∧ 20 ≤ r ∧ r < 20 + 16 ∧ r ≤ INT_MAX ∧
      ∀ r' : Int, r' % 16 = 0 → 20 ≤ r' → r ≤ r' :=
  roundUp_smallest_multiple 16 20 (by decide) (by decide) ⟨2, by decide, by decide⟩

/-- Claim C1 fails as stated at `roundUp(2, 2147483647)`: `size += quantization`
leaves the range of `int`, and the value returned, `-2147483648`, is below the
minimum. No `int` at all is an even number that is at least `2147483647`. -/
theorem roundUp_overflow_counterexample :
    roundUp 2 2147483647 = some (-2147483648) ∧
      (¬ ∃ r, roundUp 2 2147483647 = some r ∧ r % 2 = 0 ∧ 2147483647 ≤ r ∧
        r < 2147483647 + 2) ∧
      ¬ ∃ r : Int, r ≤ INT_MAX ∧ r % 2 = 0 ∧ 2147483647 ≤ r := by
  have h : roundUp 2 2147483647 = some (-2147483648) := by decide
  refine ⟨h, ?_, ?_⟩
  · rintro ⟨r, hr, -, hge, -⟩
    rw [h] at hr
    cases hr
    omega
  · rintro ⟨r, hmax, hmod, hge⟩
    unfold INT_MAX at hmax
    omega

/-! ## C2 and C9: getPower2Upperbound -/

/-- Claim C2, as amended: for every value `v` with `1 ≤ v ≤ 2 ^ 30`,
`getPower2Upperbound v` returns (for every fuel of at least 31 loop tests) the
smallest power of two that is at least `v`: the result is `2 ^ k`, `v ≤ 2 ^ k`,
`2 ^ k / 2 < v` when `v > 1`, and every power of two that is at least `v` is at
least `2 ^ k`. -/
theorem getPower2Upperbound_smallest_power (v : Int) (h1 : 1 ≤ v) (hv : v ≤ 2 ^ 30) :
    ∃ k : Nat, k ≤ 30 ∧
      (∀ fuel, 31 ≤ fuel → getPower2Upperbound fuel v = some (2 ^ k)) ∧
      v ≤ 2 ^ k ∧ (1 < v → (2 : Int) ^ k / 2 < v) ∧
      ∀ j : Nat, v ≤ 2 ^ j → (2 : Int) ^ k ≤ 2 ^ j := by
  obtain ⟨k, hk, hrun, hge, hprev⟩ :=
    getPower2UpperboundLoop_pow v hv 31 0 (by omega) (by omega) (Or.inl rfl)
  rw [pow_zero] at hrun
  refine ⟨k, hk, ?_, hge, ?_, ?_⟩
  · intro fuel hfuel
    exact getPower2UpperboundLoop_mono v 31 1 _ hrun fuel hfuel
  · intro _
    rcases hprev with h0 | hlt
    · subst h0; norm_num; omega
    · obtain ⟨k', rfl⟩ : ∃ k', k = k' + 1 := ⟨k - 1, by
        rcases Nat.eq_zero_or_pos k with h | h
        · subst h; simp at hlt; omega
        · omega⟩
      rw [pow_succ]
      simpa using hlt
  · intro j hj
    rcases hprev with h0 | hlt
    · subst h0
      rw [pow_zero]
      exact one_le_pow₀ (by norm_num)
    · have hlt2 : (2 : Int) ^ (k - 1) < 2 ^ j := lt_of_lt_of_le hlt hj
      have hkj : k - 1 < j := (pow_lt_pow_iff_right₀ (by norm_num)).mp hlt2
      exact pow_le_pow_right₀ (by norm_num) (by omega)

/-- The amended C2 at `getPower2Upperbound(1025)`. -/
theorem getPower2Upperbound_smallest_power_witness :
    ∃ k : Nat, k ≤ 30 ∧
      (∀ fuel, 31 ≤ fuel → getPower2Upperbound fuel 1025 = some (2 ^ k)) ∧
      (1025 : Int) ≤ 2 ^ k ∧ ((1 : Int) < 1025 → (2 : Int) ^ k / 2 < 1025) ∧
      ∀ j : Nat, (1025 : Int) ≤ 2 ^ j → (2 : Int) ^ k ≤ 2 ^ j :=
  getPower2Upperbound_smallest_power 1025 (by decide) (by decide)

/-- Claim C2 fails as stated at `v = 2147483647` (`INT_MAX`): the call returns
no result, whatever the number of iterations allowed. No `int` at all is a
power of two that is at least `2147483647`. -/
theorem getPower2Upperbound_intMax_counterexample :
    (¬ ∃ (fuel : Nat) (r : Int), getPower2Upperbound fuel 2147483647 = some r) ∧
      ¬ ∃ k : Nat, (2 : Int) ^ k ≤ INT_MAX ∧ (2147483647 : Int) ≤ 2 ^ k := by
  refine ⟨?_, ?_⟩
  · rintro ⟨fuel, r, h⟩
    rw [getPower2Upperbound_diverges 2147483647 (by decide) fuel] at h
    cases h
  · rintro ⟨k, hmax, hge⟩
    unfold INT_MAX at hmax
    by_cases hk : k ≤ 30
    · have h30 : (2 : Int) ^ k ≤ 2 ^ 30 := pow_le_pow_right₀ (by norm_num) hk
      norm_num at h30
      omega
    · have h31 : (2 : Int) ^ 31 ≤ 2 ^ k := pow_le_pow_right₀ (by norm_num) (by omega)
      norm_num at h31
      omega

/-- Claim C9, as amended: for every `int` value of at most `2 ^ 30` (every
non-negative one up to `2 ^ 30` in particular) the doubling loop ends within 31
evaluations of its test and `getPower2Upperbound` returns a result, the same
for every larger fuel. -/
theorem getPower2Upperbound_terminates (value : Int) (hv : value ≤ 2 ^ 30) :
    ∃ r : Int, ∀ fuel, 31 ≤ fuel → getPower2Upperbound fuel value = some r := by
  obtain ⟨k, -, hrun, -, -⟩ :=
    getPower2UpperboundLoop_pow value hv 31 0 (by omega) (by omega) (Or.inl rfl)
  rw [pow_zero] at hrun
  exact ⟨2 ^ k, fun fuel hfuel => getPower2UpperboundLoop_mono value 31 1 _ hrun fuel hfuel⟩

/-- The amended C9 at the largest value it covers, `2 ^ 30 = 1073741824`. -/
theorem getPower2Upperbound_terminates_witness :
    ∃ r : Int, ∀ fuel, 31 ≤ fuel → getPower2Upperbound fuel 1073741824 = some r :=
  getPower2Upperbound_terminates 1073741824 (by decide)

/-- Claim C9 fails as stated at `value = 1073741825` (`2 ^ 30 + 1`), a
non-negative `int`: no number of iterations makes the loop end. -/
theorem getPower2Upperbound_nontermination_counterexample :
    ¬ ∃ fuel : Nat, (getPower2Upperbound fuel 1073741825).isSome = true := by
  rintro ⟨fuel, h⟩
  rw [getPower2Upperbound_diverges 1073741825 (by decide) fuel] at h
  cases h

/-! ## The outcome of the constructor, case by case -/

theorem ctor_library_missing (d : Driver) (gpuindex : Int) (h0 : d.clewInit ≠ 0) :
    ctor d gpuindex = ([Event.clewInit], Outcome.thrown "OpenCL library not found") := by
  unfold ctor
  rw [if_pos h0]

theorem ctor_platforms_fail (d : Driver) (gpuindex : Int) (h0 : d.clewInit = 0)
    (h1 : d.platformsError ≠ CL_SUCCESS) :
    (ctor d gpuindex).2 = Outcome.exited d.platformsError := by
  unfold ctor
  rw [if_neg (not_not.mpr h0), if_pos h1]

theorem ctor_no_platform (d : Driver) (gpuindex : Int) (h0 : d.clewInit = 0)
    (h1 : d.platformsError = CL_SUCCESS) (h2 : d.num_platforms = 0) :
    (ctor d gpuindex).2 = Outcome.exited (-1) := by
  unfold ctor
  rw [if_neg (not_not.mpr h0), if_neg (not_not.mpr h1), if_pos h2]

theorem ctor_devices1_fail (d : Driver) (gpuindex : Int) (h0 : d.clewInit = 0)
    (h1 : d.platformsError = CL_SUCCESS) (h2 : d.num_platforms ≠ 0)
    (h3 : d.devicesError1 ≠ CL_SUCCESS) :
    (ctor d gpuindex).2 = Outcome.exited d.devicesError1 := by
  unfold ctor
  rw [if_neg (not_not.mpr h0), if_neg (not_not.mpr h1), if_neg h2, if_pos h3]

theorem ctor_alloc_fail (d : Driver) (gpuindex : Int) (h0 : d.clewInit = 0)
    (h1 : d.platformsError = CL_SUCCESS) (h2 : d.num_platforms ≠ 0)
    (h3 : d.devicesError1 = CL_SUCCESS) (h4 : d.deviceIdsAllocated = false) :
    (ctor d gpuindex).2 = Outcome.thrown "std::bad_alloc" := by
  unfold ctor
  rw [if_neg (not_not.mpr h0), if_neg (not_not.mpr h1), if_neg h2, if_neg (not_not.mpr h3),
    if_pos h4]

theorem ctor_devices2_fail (d : Driver) (gpuindex : Int) (h0 : d.clewInit = 0)
    (h1 : d.platformsError = CL_SUCCESS) (h2 : d.num_platforms ≠ 0)
    (h3 : d.devicesError1 = CL_SUCCESS) (h4 : d.deviceIdsAllocated = true)
    (h5 : d.devicesError2 ≠ CL_SUCCESS) :
    (ctor d gpuindex).2 = Outcome.exited d.devicesError2 := by
  unfold ctor
  rw [if_neg (not_not.mpr h0), if_neg (not_not.mpr h1), if_neg h2, if_neg (not_not.mpr h3),
    if_neg (by simp [h4]), if_pos h5]

theorem ctor_out_of_range (d : Driver) (gpuindex : Int) (h0 : d.clewInit = 0)
    (h1 : d.platformsError = CL_SUCCESS) (h2 : d.num_platforms ≠ 0)
    (h3 : d.devicesError1 = CL_SUCCESS) (h4 : d.deviceIdsAllocated = true)
    (h5 : d.devicesError2 = CL_SUCCESS) (h6 : toUnsigned gpuindex ≥ d.num_devices2) :
    (ctor d gpuindex).2 = Outcome.exited (-1) := by
  unfold ctor
  rw [if_neg (not_not.mpr h0), if_neg (not_not.mpr h1), if_neg h2, if_neg (not_not.mpr h3),
    if_neg (by simp [h4]), if_neg (not_not.mpr h5), if_pos h6]

theorem ctor_outside_array (d : Driver) (gpuindex : Int) (h0 : d.clewInit = 0)
    (h1 : d.platformsError = CL_SUCCESS) (h2 : d.num_platforms ≠ 0)
    (h3 : d.devicesError1 = CL_SUCCESS) (h4 : d.deviceIdsAllocated = true)
    (h5 : d.devicesError2 = CL_SUCCESS) (h6 : toUnsigned gpuindex < d.num_devices2)
    (h7 : ¬ (0 ≤ gpuindex ∧ gpuindex < (d.num_devices1 : Int))) :
    (ctor d gpuindex).2 = Outcome.undefined := by
  unfold ctor
  rw [if_neg (not_not.mpr h0), if_neg (not_not.mpr h1), if_neg h2, if_neg (not_not.mpr h3),
    if_neg (by simp [h4]), if_neg (not_not.mpr h5), if_neg (by omega), if_pos h7]

theorem ctor_context_fail (d : Driver) (gpuindex : Int) (h0 : d.clewInit = 0)
    (h1 : d.platformsError = CL_SUCCESS) (h2 : d.num_platforms ≠ 0)
    (h3 : d.devicesError1 = CL_SUCCESS) (h4 : d.deviceIdsAllocated = true)
    (h5 : d.devicesError2 = CL_SUCCESS) (h6 : toUnsigned gpuindex < d.num_devices2)
    (h7 : 0 ≤ gpuindex ∧ gpuindex < (d.num_devices1 : Int))
    (h8 : d.contextError ≠ CL_SUCCESS) :
    (ctor d gpuindex).2 = Outcome.exited d.contextError := by
  unfold ctor
  rw [if_neg (not_not.mpr h0), if_neg (not_not.mpr h1), if_neg h2, if_neg (not_not.mpr h3),
    if_neg (by simp [h4]), if_neg (not_not.mpr h5), if_neg (by omega), if_neg (not_not.mpr h7),
    if_pos h8]

theorem ctor_queue_fail (d : Driver) (gpuindex : Int) (h0 : d.clewInit = 0)
    (h1 : d.platformsError = CL_SUCCESS) (h2 : d.num_platforms ≠ 0)
    (h3 : d.devicesError1 = CL_SUCCESS) (h4 : d.deviceIdsAllocated = true)
    (h5 : d.devicesError2 = CL_SUCCESS) (h6 : toUnsigned gpuindex < d.num_devices2)
    (h7 : 0 ≤ gpuindex ∧ gpuindex < (d.num_devices1 : Int))
    (h8 : d.contextError = CL_SUCCESS) (h9 : d.queueError ≠ CL_SUCCESS) :
    (ctor d gpuindex).2 = Outcome.exited d.queueError := by
  unfold ctor
  rw [if_neg (not_not.mpr h0), if_neg (not_not.mpr h1), if_neg h2, if_neg (not_not.mpr h3),
    if_neg (by simp [h4]), if_neg (not_not.mpr h5), if_neg (by omega), if_neg (not_not.mpr h7),
    if_neg (not_not.mpr h8), if_pos h9]

theorem ctor_success (d : Driver) (gpuindex : Int) (h0 : d.clewInit = 0)
    (h1 : d.platformsError = CL_SUCCESS) (h2 : d.num_platforms ≠ 0)
    (h3 : d.devicesError1 = CL_SUCCESS) (h4 : d.deviceIdsAllocated = true)
    (h5 : d.devicesError2 = CL_SUCCESS) (h6 : toUnsigned gpuindex < d.num_devices2)
    (h7 : 0 ≤ gpuindex ∧ gpuindex < (d.num_devices1 : Int))
    (h8 : d.contextError = CL_SUCCESS) (h9 : d.queueError = CL_SUCCESS) :
    ctor d gpuindex =
      ([Event.clewInit, Event.clGetPlatformIDs, Event.clGetDeviceIDs 1,
        Event.newDeviceIds d.num_devices1, Event.clGetDeviceIDs d.num_devices1,
        Event.readDeviceIds gpuindex,
        Event.clCreateContext (d.device_ids gpuindex),
        Event.clCreateCommandQueue d.context (d.device_ids gpuindex)],
       Outcome.returned
        { error := CL_SUCCESS
          num_platforms := d.num_platforms
          platform_id := d.platform_id
          context := d.context
          queue := d.queue
          device := d.device_ids gpuindex
          num_devices := d.num_devices2
          gpuIndex := gpuindex }) := by
  unfold ctor
  rw [if_neg (not_not.mpr h0), if_neg (not_not.mpr h1), if_neg h2, if_neg (not_not.mpr h3),
    if_neg (by simp [h4]), if_neg (not_not.mpr h5), if_neg (by omega), if_neg (not_not.mpr h7),
    if_neg (not_not.mpr h8), if_neg (not_not.mpr h9), h9]

/-- The argument of every `exit` of the constructor, with the step that
failed. -/
theorem ctor_exit_cases (d : Driver) (gpuindex : Int) (code : Int)
    (h : (ctor d gpuindex).2 = Outcome.exited code) :
    (code = d.platformsError ∧ d.platformsError ≠ CL_SUCCESS) ∨
      (code = -1 ∧ d.platformsError = CL_SUCCESS ∧ d.num_platforms = 0) ∨
      (code = d.devicesError1 ∧ d.devicesError1 ≠ CL_SUCCESS) ∨
      (code = d.devicesError2 ∧ d.devicesError2 ≠ CL_SUCCESS) ∨
      (code = -1 ∧ d.devicesError2 = CL_SUCCESS ∧ toUnsigned gpuindex ≥ d.num_devices2) ∨
      (code = d.contextError ∧ d.contextError ≠ CL_SUCCESS) ∨
      (code = d.queueError ∧ d.queueError ≠ CL_SUCCESS) := by
  by_cases h0 : d.clewInit = 0
  swap
  · rw [ctor_library_missing d gpuindex h0] at h
    cases h
  by_cases h1 : d.platformsError = CL_SUCCESS
  swap
  · rw [ctor_platforms_fail d gpuindex h0 h1] at h
    cases h
    exact Or.inl ⟨rfl, h1⟩
  by_cases h2 : d.num_platforms = 0
  · rw [ctor_no_platform d gpuindex h0 h1 h2] at h
    cases h
    exact Or.inr (Or.inl ⟨rfl, h1, h2⟩)
  by_cases h3 : d.devicesError1 = CL_SUCCESS
  swap
  · rw [ctor_devices1_fail d gpuindex h0 h1 h2 h3] at h
    cases h
    exact Or.inr (Or.inr (Or.inl ⟨rfl, h3⟩))
  by_cases h4 : d.deviceIdsAllocated = true
  swap
  · rw [ctor_alloc_fail d gpuindex h0 h1 h2 h3 (by simpa using h4)] at h
    cases h
  by_cases h5 : d.devicesError2 = CL_SUCCESS
  swap
  · rw [ctor_devices2_fail d gpuindex h0 h1 h2 h3 h4 h5] at h
    cases h
    exact Or.inr (Or.inr (Or.inr (Or.inl ⟨rfl, h5⟩)))
  by_cases h6 : toUnsigned gpuindex ≥ d.num_devices2
  · rw [ctor_out_of_range d gpuindex h0 h1 h2 h3 h4 h5 h6] at h
    cases h
    exact Or.inr (Or.inr (Or.inr (Or.inr (Or.inl ⟨rfl, h5, h6⟩))))
  have h6' : toUnsigned gpuindex < d.num_devices2 := by omega
  by_cases h7 : 0 ≤ gpuindex ∧ gpuindex < (d.num_devices1 : Int)
  swap
  · rw [ctor_outside_array d gpuindex h0 h1 h2 h3 h4 h5 h6' h7] at h
    cases h
  by_cases h8 : d.contextError = CL_SUCCESS
  swap
  · rw [ctor_context_fail d gpuindex h0 h1 h2 h3 h4 h5 h6' h7 h8] at h
    cases h
    exact Or.inr (Or.inr (Or.inr (Or.inr (Or.inr (Or.inl ⟨rfl, h8⟩)))))
  by_cases h9 : d.queueError = CL_SUCCESS
  swap
  · rw [ctor_queue_fail d gpuindex h0 h1 h2 h3 h4 h5 h6' h7 h8 h9] at h
    cases h
    exact Or.inr (Or.inr (Or.inr (Or.inr (Or.inr (Or.inr ⟨rfl, h9⟩)))))
  rw [ctor_success d gpuindex h0 h1 h2 h3 h4 h5 h6' h7 h8 h9] at h
  cases h

/-! ## C3, C4, C10: the constructor -/

/-- The constructor against concrete drivers: device 0 and device 1 of
`goodDriver` are selected; with no platform the exit code is `-1` even though
the device enumeration would fail; a failed allocation of `device_ids` throws;
an index that passes the range test against the second count but lies outside
the array sized by the first count is undefined behaviour. -/
theorem ctor_examples :
    (∃ h, (ctor goodDriver 0).2 = Outcome.returned h ∧ h.device = 100) ∧
      (∃ h, (ctor goodDriver 1).2 = Outcome.returned h ∧ h.device = 101) ∧
      (ctor noPlatformDriver 0).2 = Outcome.exited (-1) ∧
      (ctor noMemoryDriver 0).2 = Outcome.thrown "std::bad_alloc" ∧
      (ctor growingDriver 1).2 = Outcome.undefined := by
  refine ⟨⟨_, rfl, rfl⟩, ⟨_, rfl, rfl⟩, ?_, ?_, ?_⟩ <;> decide

/-- Claim C3: when the library loads and platform and device enumeration
succeed (the array for the second enumeration was allocated and both calls
returned `CL_SUCCESS`), reporting `num_devices2` GPU devices, every `gpuindex`
(an `int`) that is equal to or greater than that count makes the constructor
end in `exit(-1)`; no entry of `device_ids` is read and no context or queue is
created on the way. -/
theorem ctor_index_out_of_range (d : Driver) (gpuindex : Int)
    (hlib : d.clewInit = 0) (hplat : d.platformsError = CL_SUCCESS)
    (hdev1 : d.devicesError1 = CL_SUCCESS) (halloc : d.deviceIdsAllocated = true)
    (hdev2 : d.devicesError2 = CL_SUCCESS)
    (hint : gpuindex ≤ INT_MAX) (hidx : (d.num_devices2 : Int) ≤ gpuindex) :
    (ctor d gpuindex).2 = Outcome.exited (-1) ∧
      ∀ e ∈ (ctor d gpuindex).1, usesDevice e = false := by
  have hu : (toUnsigned gpuindex : Int) = gpuindex :=
    toUnsigned_of_nonneg gpuindex (by omega) hint
  have hge : toUnsigned gpuindex ≥ d.num_devices2 := by omega
  unfold ctor
  rw [if_neg (by simp [hlib]), if_neg (by simp [hplat])]
  by_cases hnp : d.num_platforms = 0
  · rw [if_pos hnp]
    simp [usesDevice]
  · rw [if_neg hnp, if_neg (by simp [hdev1]), if_neg (by simp [halloc]),
      if_neg (by simp [hdev2]), if_pos hge]
    simp [usesDevice]

/-- Claim C3 at `goodDriver` (two devices) and `gpuindex = 2`. -/
theorem ctor_index_out_of_range_witness :
    (ctor goodDriver 2).2 = Outcome.exited (-1) ∧
      ∀ e ∈ (ctor goodDriver 2).1, usesDevice e = false :=
  ctor_index_out_of_range goodDriver 2 rfl rfl rfl rfl rfl (by decide) (by decide)

/-- Claim C4, as amended: for every answer of the driver and of the allocator
and every `gpuindex`, the constructor ends in exactly one of the ways below,
each fixed by the first step that fails.

* The library does not load: it throws `std::runtime_error` before any driver
  call.
* `clGetPlatformIDs` fails: `exit` with that status.
* No platform: `exit(-1)`.
* The first `clGetDeviceIDs` fails: `exit` with that status.
* The array `device_ids` cannot be allocated: it throws `std::bad_alloc`.
* The second `clGetDeviceIDs` fails: `exit` with that status.
* The index is out of range against the second count: `exit(-1)`.
* The index passes that test and is no index of the array, which has the
  first count of entries: the read is undefined behaviour.
* `clCreateContext` fails: `exit` with that status.
* `clCreateCommandQueue` fails: `exit` with that status.
* Every step succeeded: it returns an object holding the selected device, the
  created context and queue and the status `CL_SUCCESS`, and both creations
  are in the trace.

Every argument of `exit` is non-zero, and an object is returned only when the
context and the queue were created successfully. -/
theorem ctor_all_or_nothing (d : Driver) (gpuindex : Int) :
    ((d.clewInit ≠ 0 ∧
        ctor d gpuindex = ([Event.clewInit], Outcome.thrown "OpenCL library not found")) ∨
      (d.clewInit = 0 ∧ d.platformsError ≠ CL_SUCCESS ∧
        (ctor d gpuindex).2 = Outcome.exited d.platformsError) ∨
      (d.clewInit = 0 ∧ d.platformsError = CL_SUCCESS ∧ d.num_platforms = 0 ∧
        (ctor d gpuindex).2 = Outcome.exited (-1)) ∨
      (d.clewInit = 0 ∧ d.platformsError = CL_SUCCESS ∧ d.num_platforms ≠ 0 ∧
        d.devicesError1 ≠ CL_SUCCESS ∧
        (ctor d gpuindex).2 = Outcome.exited d.devicesError1) ∨
      (d.clewInit = 0 ∧ d.platformsError = CL_SUCCESS ∧ d.num_platforms ≠ 0 ∧
        d.devicesError1 = CL_SUCCESS ∧ d.deviceIdsAllocated = false ∧
        (ctor d gpuindex).2 = Outcome.thrown "std::bad_alloc") ∨
      (d.clewInit = 0 ∧ d.platformsError = CL_SUCCESS ∧ d.num_platforms ≠ 0 ∧
        d.devicesError1 = CL_SUCCESS ∧ d.deviceIdsAllocated = true ∧
        d.devicesError2 ≠ CL_SUCCESS ∧
        (ctor d gpuindex).2 = Outcome.exited d.devicesError2) ∨
      (d.clewInit = 0 ∧ d.platformsError = CL_SUCCESS ∧ d.num_platforms ≠ 0 ∧
        d.devicesError1 = CL_SUCCESS ∧ d.deviceIdsAllocated = true ∧
        d.devicesError2 = CL_SUCCESS ∧ toUnsigned gpuindex ≥ d.num_devices2 ∧
        (ctor d gpuindex).2 = Outcome.exited (-1)) ∨
      (d.clewInit = 0 ∧ d.platformsError = CL_SUCCESS ∧ d.num_platforms ≠ 0 ∧
        d.devicesError1 = CL_SUCCESS ∧ d.deviceIdsAllocated = true ∧
        d.devicesError2 = CL_SUCCESS ∧ toUnsigned gpuindex < d.num_devices2 ∧
        ¬ (0 ≤ gpuindex ∧ gpuindex < (d.num_devices1 : Int)) ∧
        (ctor d gpuindex).2 = Outcome.undefined) ∨
      (d.clewInit = 0 ∧ d.platformsError = CL_SUCCESS ∧ d.num_platforms ≠ 0 ∧
        d.devicesError1 = CL_SUCCESS ∧ d.deviceIdsAllocated = true ∧
        d.devicesError2 = CL_SUCCESS ∧ toUnsigned gpuindex < d.num_devices2 ∧
        (0 ≤ gpuindex ∧ gpuindex < (d.num_devices1 : Int)) ∧
        d.contextError ≠ CL_SUCCESS ∧
        (ctor d gpuindex).2 = Outcome.exited d.contextError) ∨
      (d.clewInit = 0 ∧ d.platformsError = CL_SUCCESS ∧ d.num_platforms ≠ 0 ∧
        d.devicesError1 = CL_SUCCESS ∧ d.deviceIdsAllocated = true ∧
        d.devicesError2 = CL_SUCCESS ∧ toUnsigned gpuindex < d.num_devices2 ∧
        (0 ≤ gpuindex ∧ gpuindex < (d.num_devices1 : Int)) ∧
        d.contextError = CL_SUCCESS ∧ d.queueError ≠ CL_SUCCESS ∧
        (ctor d gpuindex).2 = Outcome.exited d.queueError) ∨
      (d.clewInit = 0 ∧ d.platformsError = CL_SUCCESS ∧ d.num_platforms ≠ 0 ∧
        d.devicesError1 = CL_SUCCESS ∧ d.deviceIdsAllocated = true ∧
        d.devicesError2 = CL_SUCCESS ∧ toUnsigned gpuindex < d.num_devices2 ∧
        (0 ≤ gpuindex ∧ gpuindex < (d.num_devices1 : Int)) ∧
        d.contextError = CL_SUCCESS ∧ d.queueError = CL_SUCCESS ∧
        ∃ h : OpenCLHelper, (ctor d gpuindex).2 = Outcome.returned h ∧
          h.error = CL_SUCCESS ∧ h.gpuIndex = gpuindex ∧
          h.platform_id = d.platform_id ∧ h.device = d.device_ids gpuindex ∧
          h.context = d.context ∧ h.queue = d.queue ∧
          Event.clCreateContext h.device ∈ (ctor d gpuindex).1 ∧
          Event.clCreateCommandQueue h.context h.device ∈ (ctor d gpuindex).1)) ∧
    (∀ code : Int, (ctor d gpuindex).2 = Outcome.exited code → code ≠ 0) ∧
    (∀ h : OpenCLHelper, (ctor d gpuindex).2 = Outcome.returned h →
      d.contextError = CL_SUCCESS ∧ d.queueError = CL_SUCCESS ∧
        h.context = d.context ∧ h.queue = d.queue) := by
  refine ⟨?_, ?_, ?_⟩
  · by_cases h0 : d.clewInit = 0
    swap
    · exact Or.inl ⟨h0, ctor_library_missing d gpuindex h0⟩
    refine Or.inr ?_
    by_cases h1 : d.platformsError = CL_SUCCESS
    swap
    · exact Or.inl ⟨h0, h1, ctor_platforms_fail d gpuindex h0 h1⟩
    refine Or.inr ?_
    by_cases h2 : d.num_platforms = 0
    · exact Or.inl ⟨h0, h1, h2, ctor_no_platform d gpuindex h0 h1 h2⟩
    refine Or.inr ?_
    by_cases h3 : d.devicesError1 = CL_SUCCESS
    swap
    · exact Or.inl ⟨h0, h1, h2, h3, ctor_devices1_fail d gpuindex h0 h1 h2 h3⟩
    refine Or.inr ?_
    by_cases h4 : d.deviceIdsAllocated = true
    swap
    · have h4' : d.deviceIdsAllocated = false := by simpa using h4
      exact Or.inl ⟨h0, h1, h2, h3, h4', ctor_alloc_fail d gpuindex h0 h1 h2 h3 h4'⟩
    refine Or.inr ?_
    by_cases h5 : d.devicesError2 = CL_SUCCESS
    swap
    · exact Or.inl ⟨h0, h1, h2, h3, h4, h5, ctor_devices2_fail d gpuindex h0 h1 h2 h3 h4 h5⟩
    refine Or.inr ?_
    by_cases h6 : toUnsigned gpuindex ≥ d.num_devices2
    · exact Or.inl ⟨h0, h1, h2, h3, h4, h5, h6,
        ctor_out_of_range d gpuindex h0 h1 h2 h3 h4 h5 h6⟩
    refine Or.inr ?_
    have h6' : toUnsigned gpuindex < d.num_devices2 := by omega
    by_cases h7 : 0 ≤ gpuindex ∧ gpuindex < (d.num_devices1 : Int)
    swap
    · exact Or.inl ⟨h0, h1, h2, h3, h4, h5, h6', h7,
        ctor_outside_array d gpuindex h0 h1 h2 h3 h4 h5 h6' h7⟩
    refine Or.inr ?_
    by_cases h8 : d.contextError = CL_SUCCESS
    swap
    · exact Or.inl ⟨h0, h1, h2, h3, h4, h5, h6', h7, h8,
        ctor_context_fail d gpuindex h0 h1 h2 h3 h4 h5 h6' h7 h8⟩
    refine Or.inr ?_
    by_cases h9 : d.queueError = CL_SUCCESS
    swap
    · exact Or.inl ⟨h0, h1, h2, h3, h4, h5, h6', h7, h8, h9,
        ctor_queue_fail d gpuindex h0 h1 h2 h3 h4 h5 h6' h7 h8 h9⟩
    refine Or.inr ⟨h0, h1, h2, h3, h4, h5, h6', h7, h8, h9, ?_⟩
    rw [ctor_success d gpuindex h0 h1 h2 h3 h4 h5 h6' h7 h8 h9]
    exact ⟨_, rfl, rfl, rfl, rfl, rfl, rfl, rfl, by simp, by simp⟩
  · intro code hcode
    rcases ctor_exit_cases d gpuindex code hcode with
      ⟨hc, hne⟩ | ⟨hc, -⟩ | ⟨hc, hne⟩ | ⟨hc, hne⟩ | ⟨hc, -⟩ | ⟨hc, hne⟩ | ⟨hc, hne⟩
    · rw [hc]; exact hne
    · rw [hc]; decide
    · rw [hc]; exact hne
    · rw [hc]; exact hne
    · rw [hc]; decide
    · rw [hc]; exact hne
    · rw [hc]; exact hne
  · intro h hret
    by_cases h0 : d.clewInit = 0
    swap
    · rw [ctor_library_missing d gpuindex h0] at hret
      cases hret
    by_cases h1 : d.platformsError = CL_SUCCESS
    swap
    · rw [ctor_platforms_fail d gpuindex h0 h1] at hret
      cases hret
    by_cases h2 : d.num_platforms = 0
    · rw [ctor_no_platform d gpuindex h0 h1 h2] at hret
      cases hret
    by_cases h3 : d.devicesError1 = CL_SUCCESS
    swap
    · rw [ctor_devices1_fail d gpuindex h0 h1 h2 h3] at hret
      cases hret
    by_cases h4 : d.deviceIdsAllocated = true
    swap
    · rw [ctor_alloc_fail d gpuindex h0 h1 h2 h3 (by simpa using h4)] at hret
      cases hret
    by_cases h5 : d.devicesError2 = CL_SUCCESS
    swap
    · rw [ctor_devices2_fail d gpuindex h0 h1 h2 h3 h4 h5] at hret
      cases hret
    by_cases h6 : toUnsigned gpuindex ≥ d.num_devices2
    · rw [ctor_out_of_range d gpuindex h0 h1 h2 h3 h4 h5 h6] at hret
      cases hret
    have h6' : toUnsigned gpuindex < d.num_devices2 := by omega
    by_cases h7 : 0 ≤ gpuindex ∧ gpuindex < (d.num_devices1 : Int)
    swap
    · rw [ctor_outside_array d gpuindex h0 h1 h2 h3 h4 h5 h6' h7] at hret
      cases hret
    by_cases h8 : d.contextError = CL_SUCCESS
    swap
    · rw [ctor_context_fail d gpuindex h0 h1 h2 h3 h4 h5 h6' h7 h8] at hret
      cases hret
    by_cases h9 : d.queueError = CL_SUCCESS
    swap
    · rw [ctor_queue_fail d gpuindex h0 h1 h2 h3 h4 h5 h6' h7 h8 h9] at hret
      cases hret
    rw [ctor_success d gpuindex h0 h1 h2 h3 h4 h5 h6' h7 h8 h9] at hret
    cases hret
    exact ⟨h8, h9, rfl, rfl⟩

/-- Claim C4 fails as stated when the OpenCL library does not load: the
constructor neither completes its four steps nor ends the process with an exit
status; it throws `std::runtime_error`. It throws as well, `std::bad_alloc`,
when the array `device_ids` cannot be allocated. -/
theorem ctor_library_missing_counterexample :
    (ctor noLibraryDriver 0).2 = Outcome.thrown "OpenCL library not found" ∧
      ¬ ((∃ h : OpenCLHelper, (ctor noLibraryDriver 0).2 = Outcome.returned h) ∨
         (∃ code : Int, (ctor noLibraryDriver 0).2 = Outcome.exited code)) ∧
      (ctor noMemoryDriver 0).2 = Outcome.thrown "std::bad_alloc" := by
  have h : (ctor noLibraryDriver 0).2 = Outcome.thrown "OpenCL library not found" := by
    decide
  refine ⟨h, ?_, by decide⟩
  rw [h]
  rintro (⟨_, hr⟩ | ⟨_, he⟩)
  · cases hr
  · cases he

/-- Claim C10: for every negative `gpuindex` (an `int`) and every device count
below `2 ^ 31`, the test `gpuindex >= num_devices`, taken after the conversion
of `gpuindex` to `unsigned`, is true; so the constructor never returns an
object, never reads `device_ids` and never runs into undefined behaviour,
whatever the driver answers, and it ends in `exit(-1)` on the out-of-range
path whenever the steps before the test succeed (when the allocation of the
array, the one step before the test that is no driver call, fails, it throws
`std::bad_alloc` instead). -/
theorem ctor_negative_index (d : Driver) (gpuindex : Int)
    (hmin : INT_MIN ≤ gpuindex) (hneg : gpuindex < 0) (hnum : d.num_devices2 < 2 ^ 31) :
    toUnsigned gpuindex ≥ d.num_devices2 ∧
      (∀ h : OpenCLHelper, (ctor d gpuindex).2 ≠ Outcome.returned h) ∧
      (∀ e ∈ (ctor d gpuindex).1, usesDevice e = false) ∧
      (ctor d gpuindex).2 ≠ Outcome.undefined ∧
      (d.clewInit = 0 → d.platformsError = CL_SUCCESS → d.num_platforms ≠ 0 →
        d.devicesError1 = CL_SUCCESS → d.devicesError2 = CL_SUCCESS →
        (d.deviceIdsAllocated = true → (ctor d gpuindex).2 = Outcome.exited (-1)) ∧
        (d.deviceIdsAllocated = false →
          (ctor d gpuindex).2 = Outcome.thrown "std::bad_alloc")) := by
  have hu : (2147483648 : Int) ≤ toUnsigned gpuindex := toUnsigned_of_neg gpuindex hmin hneg
  have hge : toUnsigned gpuindex ≥ d.num_devices2 := by
    norm_num at hnum
    omega
  refine ⟨hge, ?_, ?_, ?_, ?_⟩
  · intro h
    unfold ctor
    split_ifs <;> simp
  · unfold ctor
    split_ifs <;> simp [usesDevice]
  · unfold ctor
    split_ifs <;> simp
  · intro h0 h1 h2 h3 h4
    constructor
    · intro h5
      unfold ctor
      rw [if_neg (by simp [h0]), if_neg (by simp [h1]), if_neg h2, if_neg (by simp [h3]),
        if_neg (by simp [h5]), if_neg (by simp [h4]), if_pos hge]
    · intro h5
      unfold ctor
      rw [if_neg (by simp [h0]), if_neg (by simp [h1]), if_neg h2, if_neg (by simp [h3]),
        if_pos h5]

/-- Claim C10 at `goodDriver` (two devices) and `gpuindex = -1`. -/
theorem ctor_negative_index_witness :
    toUnsigned (-1) ≥ goodDriver.num_devices2 ∧
      (∀ h : OpenCLHelper, (ctor goodDriver (-1)).2 ≠ Outcome.returned h) ∧
      (∀ e ∈ (ctor goodDriver (-1)).1, usesDevice e = false) ∧
      (ctor goodDriver (-1)).2 ≠ Outcome.undefined ∧
      (goodDriver.clewInit = 0 → goodDriver.platformsError = CL_SUCCESS →
        goodDriver.num_platforms ≠ 0 →
        goodDriver.devicesError1 = CL_SUCCESS → goodDriver.devicesError2 = CL_SUCCESS →
        (goodDriver.deviceIdsAllocated = true →
          (ctor goodDriver (-1)).2 = Outcome.exited (-1)) ∧
        (goodDriver.deviceIdsAllocated = false →
          (ctor goodDriver (-1)).2 = Outcome.thrown "std::bad_alloc")) :=
  ctor_negative_index goodDriver (-1) (by decide) (by decide) (by decide)

/-! ## C5 and C6: getFileContents -/

/-- `getFileContents` against concrete files: a file of six bytes is returned
whole; a file that reports six bytes and delivers four ends in `exit(-1)`. -/
theorem getFileContents_examples :
    (getFileContents textFs "k.cl").2 =
        Outcome.returned [107, 101, 114, 110, 101, 108] ∧
      (getFileContents shortFs "k.cl").2 = Outcome.exited (-1) := by
  decide

/-- Claim C5 evaluated on the code: for a file that does not open,
`getFileContents` makes no `exit` call; it returns the empty string to its
caller. -/
theorem getFileContents_missing_file_returns_empty :
    getFileContents emptyFs "missing.cl" =
      ([Event.fopen "missing.cl"], Outcome.returned []) := by
  decide

/-- Claim C6, as amended: for every file that opens, gets its buffer, is
shorter than `2 ^ 31` bytes and is read completely (`fread` delivers the
number of bytes that `ftell` reported), `getFileContents` returns the bytes of
the file that come before its first zero byte; when the file holds no zero
byte this is the full contents, with the same length and the same byte at
every position. -/
theorem getFileContents_returns_text (fs : String → FileAnswers) (filename : String)
    (hopen : (fs filename).opens = true) (halloc : (fs filename).bufferAllocated = true)
    (hlen : (fs filename).contents.length < 2 ^ 31)
    (hread : (fs filename).ftell = (fs filename).contents.length) :
    (getFileContents fs filename).2 =
        Outcome.returned ((fs filename).contents.takeWhile (fun b => b ≠ 0)) ∧
      ((∀ b ∈ (fs filename).contents, b ≠ 0) →
        ∃ s : List UInt8, (getFileContents fs filename).2 = Outcome.returned s ∧
          s.length = (fs filename).contents.length ∧
          ∀ i : Nat, s.get? i = (fs filename).contents.get? i) := by
  have hlen' : ((fs filename).contents.length : Int) < 2147483648 := by
    norm_num at hlen
    omega
  have hw : wrapInt ((fs filename).contents.length : Int) =
      ((fs filename).contents.length : Int) := by
    apply wrapInt_of_inRange
    · unfold INT_MIN; omega
    · unfold INT_MAX; omega
  have hreq : (((fs filename).contents.length : Int) % 18446744073709551616).toNat =
      (fs filename).contents.length := by
    omega
  have hres : (getFileContents fs filename).2 =
      Outcome.returned ((fs filename).contents.takeWhile (fun b => b ≠ 0)) := by
    unfold getFileContents
    simp only [hopen, halloc, hread, hreq, List.take_length, stringOfBuffer]
    rw [if_pos trivial, if_neg (by omega), if_neg (by simp), if_neg (by omega),
      if_neg (not_not.mpr hw)]
  refine ⟨hres, ?_⟩
  intro hnz
  have htw : (fs filename).contents.takeWhile (fun b => b ≠ 0) = (fs filename).contents := by
    rw [List.takeWhile_eq_self_iff]
    intro b hb
    simpa using hnz b hb
  rw [htw] at hres
  exact ⟨_, hres, rfl, fun _ => rfl⟩

/-- The amended C6 at a file holding the six bytes of the text `kernel`. -/
theorem getFileContents_returns_text_witness :
    (getFileContents textFs "k.cl").2 =
        Outcome.returned ((textFs "k.cl").contents.takeWhile (fun b => b ≠ 0)) ∧
      ((∀ b ∈ (textFs "k.cl").contents, b ≠ 0) →
        ∃ s : List UInt8, (getFileContents textFs "k.cl").2 = Outcome.returned s ∧
          s.length = (textFs "k.cl").contents.length ∧
          ∀ i : Nat, s.get? i = (textFs "k.cl").contents.get? i) :=
  getFileContents_returns_text textFs "k.cl" rfl rfl (by decide) rfl

/-- Claim C6 fails as stated at a file holding the bytes `A`, NUL, `B`: the
file opens and is read completely (three bytes), and the string returned holds
the single byte `A`. -/
theorem getFileContents_nul_counterexample :
    (nulFs "k.cl").opens = true ∧
      (nulFs "k.cl").ftell = (nulFs "k.cl").contents.length ∧
      (getFileContents nulFs "k.cl").2 = Outcome.returned [65] ∧
      (getFileContents nulFs "k.cl").2 ≠ Outcome.returned (nulFs "k.cl").contents := by
  decide

/-! ## C7 and C8: checkError and finish -/

/-- Claim C8: `finish` returns to its caller if and only if `clFinish` returned
`CL_SUCCESS`; for every other status, `-36` or not, it ends the process through
`exit`; and an object it returns holds `CL_SUCCESS` in its `error` field, its
other fields unchanged. -/
theorem finish_outcomes (self : OpenCLHelper) (status : Int) :
    ((∃ h : OpenCLHelper, (finish self status).2 = Outcome.returned h) ↔
        status = CL_SUCCESS) ∧
    (status ≠ CL_SUCCESS → ∃ code : Int, (finish self status).2 = Outcome.exited code) ∧
    (∀ h : OpenCLHelper, (finish self status).2 = Outcome.returned h →
        h.error = CL_SUCCESS ∧ h = { self with error := CL_SUCCESS }) ∧
    (∀ w : String, (finish self status).2 ≠ Outcome.thrown w) := by
  unfold finish
  by_cases hs : status = CL_SUCCESS
  · subst hs
    simp
  · by_cases h36 : status = -36
    · simp [hs, h36, CL_SUCCESS]
    · simp [hs, h36, checkError, andThen]

end OpenCLHelper

end EasyCL
